import Mathlib

/-!
Shallow embedding of the FHIR Converter service layer (src/src/routes.js).

Each Express route handler is embedded as a pure Lean function from the
request data and the results of its collaborators (git filesystem, worker
pool, template cache) to the HTTP response it writes together with the
ordered list of side effects it performs.  List order models the temporal
order of the effects in the handler body.
-/

namespace FhirConverter

/-- Error codes from src/lib/error/error.js as used in routes.js. -/
inductive ErrorCode
  | BadRequest
  | Unauthorized
  | NotFound
  | Conflict
  | WriteError
  deriving DecidableEq

/-- An error envelope as produced by errorMessage(code, message). -/
structure ErrorBody where
  code : ErrorCode
  message : String
  deriving DecidableEq

/-- The structured result message a conversion worker returns: it carries the
inner converted document in its fhirResource field plus further report
fields, abstracted here as a single opaqueRest string. -/
structure ResultMsg where
  fhirResource : String
  opaqueRest : String
  deriving DecidableEq

/-- The body a handler writes into the HTTP response. -/
inductive Body
  | empty
  | error (e : ErrorBody)
  | text (s : String)
  | jsonFull (m : ResultMsg)
  | jsonInner (doc : String)
  deriving DecidableEq

/-- An HTTP response: status code plus body. -/
structure Response where
  status : Nat
  body : Body
  deriving DecidableEq

/-- Side effects a handler can perform, in the order it performs them. -/
inductive Effect
  | callNext
  | gitHandle (url : String)
  | broadcastTemplatesUpdated
  | checkoutBranch (name : String)
  | commitAllChanges (message committerName email : Option String)
  | setTemplate (name content : String)
  | removeTemplate (name : String)
  | clearTemplateCache
  | renameAside (file : String)
  | copyBaseTemplates
  | deleteFile (file : String)
  deriving DecidableEq

/-- Character-level prefix test: charsStartWith cs ps is true when ps is a
prefix of cs.  This is the semantics of the JavaScript String.startsWith
used by the /git middleware (the URLs involved are plain ASCII). -/
def charsStartWith : List Char → List Char → Bool
  | _, [] => true
  | [], _ :: _ => false
  | c :: cs, p :: ps => c == p && charsStartWith cs ps

/-- String.startsWith as used in routes.js, in kernel-reducible form. -/
def strStartsWith (s pre : String) : Bool :=
  charsStartWith s.data pre.data

/-- Outcome of the /git wire-protocol middleware (routes.js lines 79-92):
whether it handed the request to the next handler, the final value of
req.url, and the effects it performed. -/
structure GitOutcome where
  passedToNext : Bool
  finalUrl : String
  effects : List Effect
  deriving DecidableEq

/-- The /git middleware.  If the sub-path is not a ref-discovery path, not
/git-upload-pack and not /git-receive-pack, it calls next() and touches
nothing; otherwise it rewrites req.url to prepend the repository name, lets
the git backend handle the request, and broadcasts templatesUpdated. -/
def gitMiddleware (repoName : String) (url : String) : GitOutcome :=
  if !(strStartsWith url "/info") && url != "/git-upload-pack" && url != "/git-receive-pack" then
    ⟨true, url, [Effect.callNext]⟩
  else
    let newUrl := "/" ++ repoName ++ url
    ⟨false, newUrl, [Effect.gitHandle newUrl, Effect.broadcastTemplatesUpdated]⟩

/-- A branch descriptor as returned by gfs.getBranches(): the handlers only
use its name field. -/
structure Branch where
  name : String
  deriving DecidableEq

/-- JavaScript truthiness of an optional string field of the request body:
a missing field and the empty string are falsy (the `!req.body.name` test). -/
def jsTruthy : Option String → Bool
  | none => false
  | some s => s != ""

/-- POST /api/templates/git/checkout (routes.js lines 354-379).  Inputs: the
body's name field, the branch list gfs.getBranches() resolved with, and the
outcome of gfs.checkoutBranch.  Output: the response written and the
effects performed, in order. -/
def checkoutHandler (bodyName : Option String) (branches : List Branch)
    (checkoutResult : Except String Unit) : Response × List Effect :=
  if !(jsTruthy bodyName) then
    (⟨400, Body.error ⟨ErrorCode.BadRequest, "Branch name required"⟩⟩, [])
  else
    let name := bodyName.getD ""
    if (branches.map Branch.name).contains name then
      match checkoutResult with
      | Except.ok _ =>
          (⟨200, Body.empty⟩,
           [Effect.checkoutBranch name, Effect.clearTemplateCache,
            Effect.broadcastTemplatesUpdated])
      | Except.error reason =>
          (⟨409, Body.error ⟨ErrorCode.Conflict, "Unable to checkout branch: " ++ reason⟩⟩,
           [Effect.checkoutBranch name])
    else
      (⟨404, Body.error ⟨ErrorCode.NotFound, "Branch not found"⟩⟩, [])

/-- POST /api/templates/git/commit (routes.js lines 422-438).  Inputs: the
changed-path list gfs.getStatus() resolved with, the body fields, and the
outcome of gfs.commitAllChanges.  The handler writes no response when the
commit operation rejects (it has no catch branch), hence Option Response. -/
def commitHandler (statusList : List String)
    (message committerName email : Option String)
    (commitResult : Except String Unit) : Option Response × List Effect :=
  if statusList.length > 0 then
    match commitResult with
    | Except.ok _ =>
        (some ⟨200, Body.empty⟩, [Effect.commitAllChanges message committerName email])
    | Except.error _ =>
        (none, [Effect.commitAllChanges message committerName email])
  else
    (some ⟨409, Body.error ⟨ErrorCode.Conflict, "No changes to commit"⟩⟩, [])

/-- PUT /api/templates/:file (routes.js lines 552-566).  Inputs: the file
name, the request body text, the pre-write existence check
templateCache.has(file), and the outcome of templateCache.set.  On success
the write effect precedes the broadcast; on write failure neither a
completed write nor a broadcast happens. -/
def putTemplateHandler (file bodyText : String) (hasResult : Bool)
    (setResult : Except Unit Unit) : Response × List Effect :=
  match setResult with
  | Except.ok _ =>
      (⟨if hasResult then 200 else 201, Body.empty⟩,
       [Effect.setTemplate file bodyText, Effect.broadcastTemplatesUpdated])
  | Except.error _ =>
      (⟨403, Body.error ⟨ErrorCode.WriteError, "Unable to write template " ++ file⟩⟩, [])

/-- The result a conversion worker resolves a dispatched job with. -/
structure WorkerResult where
  status : Nat
  resultMsg : ResultMsg
  deriving DecidableEq

/-- The job message a conversion route submits to the worker pool. -/
inductive ConvertJob
  | inlineTemplate (messageBase64 templateBase64 replacementDictionaryBase64
      templatesMapBase64 : Option String)
  | storedTemplate (messageContent templateName : String)
  deriving DecidableEq

/-- POST /api/convert/hl7 (routes.js lines 709-733).  Builds the job sent to
the worker pool and, from the worker's result and the api-version query
parameter, the response: the status is the worker's status; version 1.0
returns the full structured result; otherwise a 200 result returns only the
inner fhirResource document and a failure returns the full result. -/
def convertHl7Handler (apiVersion : Option String)
    (messageBase64 templateBase64 replacementDictionaryBase64
      templatesMapBase64 : Option String)
    (result : WorkerResult) : ConvertJob × Response :=
  (ConvertJob.inlineTemplate messageBase64 templateBase64
      replacementDictionaryBase64 templatesMapBase64,
   ⟨result.status,
    if apiVersion = some "1.0" then Body.jsonFull result.resultMsg
    else if result.status = 200 then Body.jsonInner result.resultMsg.fhirResource
    else Body.jsonFull result.resultMsg⟩)

/-- POST /api/convert/hl7/:template (routes.js lines 782-804): same response
selection as the inline route, with the job built from the raw body and the
template path parameter. -/
def convertHl7TemplateHandler (apiVersion : Option String)
    (messageContent templateName : String)
    (result : WorkerResult) : ConvertJob × Response :=
  (ConvertJob.storedTemplate messageContent templateName,
   ⟨result.status,
    if apiVersion = some "1.0" then Body.jsonFull result.resultMsg
    else if result.status = 200 then Body.jsonInner result.resultMsg.fhirResource
    else Body.jsonFull result.resultMsg⟩)

/-- POST /api/UpdateBaseTemplates (routes.js lines 636-662).  Inputs: the
directory listing of the template location and the error the ncp copy
callback received (none on success).  Every listed file whose name does not
start with a dot is renamed into the temp folder; then the base set is
copied in; on copy success the cache is cleared and templatesUpdated
broadcast with a 200 response, on copy failure a 403 WriteError response. -/
def updateBaseTemplatesHandler (existingFiles : List String)
    (ncpError : Option String) : Response × List Effect :=
  let moves := (existingFiles.filter
      (fun fl => !(strStartsWith fl "."))).map Effect.renameAside
  match ncpError with
  | some errMessage =>
      (⟨403, Body.error ⟨ErrorCode.WriteError, errMessage⟩⟩,
       moves ++ [Effect.copyBaseTemplates])
  | none =>
      (⟨200, Body.empty⟩,
       moves ++ [Effect.copyBaseTemplates, Effect.clearTemplateCache,
         Effect.broadcastTemplatesUpdated])

/-- Modelled from the spec: the directory cache implementation
(lib/fsCache/cache) is not under src/.  Spec section 4.1 describes a
read-through/write-through cache over a directory of named text artifacts:
backing is the underlying directory, cached the per-key cache entries. -/
structure DirectoryCache where
  backing : String → Option String
  cached : String → Option String

/-- Modelled from the spec: get(name) returns the cached content when an
entry is present and otherwise reads through to the backing directory,
failing NotFound (none) if absent. -/
def cacheGet (c : DirectoryCache) (name : String) : Option String :=
  match c.cached name with
  | some v => some v
  | none => c.backing name

/-- Modelled from the spec: has(name) is the existence check. -/
def cacheHas (c : DirectoryCache) (name : String) : Bool :=
  (cacheGet c name).isSome

/-- Modelled from the spec: set(name, content) writes through to the backing
store and updates the cache entry; it returns whether the name previously
existed (drives 200-vs-201 semantics upstream). -/
def cacheSet (c : DirectoryCache) (name content : String) : DirectoryCache × Bool :=
  (⟨fun n => if n = name then some content else c.backing n,
    fun n => if n = name then some content else c.cached n⟩,
   cacheHas c name)

/-- PUT /api/templates/:file running against the spec-modelled cache: the
existence pre-check, then the write-through set, then the broadcast and the
200-vs-201 response. -/
def putTemplateRoute (c : DirectoryCache) (file bodyText : String) :
    DirectoryCache × Response × List Effect :=
  let hasResult := cacheHas c file
  let c2 := (cacheSet c file bodyText).1
  (c2,
   ⟨if hasResult then 200 else 201, Body.empty⟩,
   [Effect.setTemplate file bodyText, Effect.broadcastTemplatesUpdated])

/-- GET /api/templates/:file (routes.js lines 506-513) running against the
spec-modelled cache: the found content is written as the response text,
otherwise 404 NotFound. -/
def getTemplateRoute (c : DirectoryCache) (file : String) : Response :=
  match cacheGet c file with
  | some content => ⟨200, Body.text content⟩
  | none => ⟨404, Body.error ⟨ErrorCode.NotFound, "Template not found"⟩⟩

/-- C1: the claim states that a completed push (receive-pack) through the
wire-protocol passthrough clears the template cache and broadcasts
templatesUpdated exactly as the API-driven checkout does.  The handler
performs no cache clear: on a receive-pack request its effects are exactly
the git handling and the broadcast. -/
theorem C1_counterexample :
    Effect.broadcastTemplatesUpdated ∈ (gitMiddleware "templates" "/git-receive-pack").effects ∧
    Effect.clearTemplateCache ∉ (gitMiddleware "templates" "/git-receive-pack").effects := by
  decide

/-- C1 (amended): for every receive-pack (push) request, the /git handler
broadcasts templatesUpdated to the worker pool but does not clear the
template cache, so the cache may stay stale until the next clear. -/
theorem C1_push (repoName : String) :
    Effect.broadcastTemplatesUpdated ∈ (gitMiddleware repoName "/git-receive-pack").effects ∧
    Effect.clearTemplateCache ∉ (gitMiddleware repoName "/git-receive-pack").effects := by
  have hc : (!(strStartsWith "/git-receive-pack" "/info") &&
      "/git-receive-pack" != "/git-upload-pack" &&
      "/git-receive-pack" != "/git-receive-pack") = false := by decide
  simp [gitMiddleware, hc]

/-- C8: every request under /git whose sub-path is neither a ref-discovery
path (/info...), /git-upload-pack nor /git-receive-pack is passed to the
next handler with req.url unchanged, and the git handler writes no response
and performs no other effect. -/
theorem C8_passthrough (repoName url : String)
    (h : (!(strStartsWith url "/info") && url != "/git-upload-pack" &&
          url != "/git-receive-pack") = true) :
    gitMiddleware repoName url = ⟨true, url, [Effect.callNext]⟩ := by
  simp [gitMiddleware, h]

theorem C8_passthrough_witness :
    gitMiddleware "templates" "/foo" = ⟨true, "/foo", [Effect.callNext]⟩ :=
  C8_passthrough "templates" "/foo" (by decide)

/-- C9: every recognized wire-protocol request under /git — ref discovery,
upload-pack and receive-pack alike — makes the handler broadcast
templatesUpdated to the worker pool, and the handler never clears or
otherwise modifies any template-cache entry. -/
theorem C9_protocol_broadcast (repoName url : String)
    (h : (!(strStartsWith url "/info") && url != "/git-upload-pack" &&
          url != "/git-receive-pack") = false) :
    (gitMiddleware repoName url).effects =
      [Effect.gitHandle ("/" ++ repoName ++ url), Effect.broadcastTemplatesUpdated] ∧
    Effect.broadcastTemplatesUpdated ∈ (gitMiddleware repoName url).effects ∧
    Effect.clearTemplateCache ∉ (gitMiddleware repoName url).effects ∧
    (∀ n c, Effect.setTemplate n c ∉ (gitMiddleware repoName url).effects) ∧
    (∀ n, Effect.removeTemplate n ∉ (gitMiddleware repoName url).effects) := by
  simp [gitMiddleware, h]

theorem C9_protocol_broadcast_witness :
    Effect.broadcastTemplatesUpdated ∈ (gitMiddleware "templates" "/git-upload-pack").effects ∧
    Effect.clearTemplateCache ∉ (gitMiddleware "templates" "/git-upload-pack").effects :=
  ⟨(C9_protocol_broadcast "templates" "/git-upload-pack" (by decide)).2.1,
   (C9_protocol_broadcast "templates" "/git-upload-pack" (by decide)).2.2.1⟩

/-- Helper: a listed file whose name does not start with a dot appears among
the rename-aside effects of the bulk reset. -/
theorem renameAside_mem_moves {f : String} {fs : List String}
    (hf : f ∈ fs) (hdot : strStartsWith f "." = false) :
    Effect.renameAside f ∈
      (fs.filter (fun fl => !(strStartsWith fl "."))).map Effect.renameAside :=
  List.mem_map_of_mem _ (List.mem_filter.mpr ⟨hf, by simp [hdot]⟩)

/-- C2: for POST /api/templates/git/commit, a non-empty getStatus() list
leads to one commitAllChanges of all working-tree changes and a 200
response (the commit operation resolving), while an empty list is rejected
with 409 Conflict and no commit call is made. -/
theorem C2_commit (p : String) (rest : List String)
    (message committerName email : Option String) (r : Except String Unit) :
    commitHandler (p :: rest) message committerName email (Except.ok ()) =
      (some ⟨200, Body.empty⟩, [Effect.commitAllChanges message committerName email]) ∧
    commitHandler [] message committerName email r =
      (some ⟨409, Body.error ⟨ErrorCode.Conflict, "No changes to commit"⟩⟩, []) := by
  constructor <;> simp [commitHandler]

/-- C3: for POST /api/templates/git/checkout, a missing (falsy) name yields
400 BadRequest; a name outside the branch list yields 404 NotFound with no
effect on the cache or working set; a successful checkout clears the cache,
broadcasts templatesUpdated and responds 200; a failed checkout responds
409 Conflict. -/
theorem C3_checkout (bodyName : Option String) (branches : List Branch)
    (r : Except String Unit) :
    (jsTruthy bodyName = false →
      checkoutHandler bodyName branches r =
        (⟨400, Body.error ⟨ErrorCode.BadRequest, "Branch name required"⟩⟩, [])) ∧
    (∀ name, bodyName = some name → jsTruthy bodyName = true →
      (branches.map Branch.name).contains name = false →
      checkoutHandler bodyName branches r =
        (⟨404, Body.error ⟨ErrorCode.NotFound, "Branch not found"⟩⟩, [])) ∧
    (∀ name, bodyName = some name → jsTruthy bodyName = true →
      (branches.map Branch.name).contains name = true → r = Except.ok () →
      checkoutHandler bodyName branches r =
        (⟨200, Body.empty⟩,
         [Effect.checkoutBranch name, Effect.clearTemplateCache,
          Effect.broadcastTemplatesUpdated])) ∧
    (∀ name reason, bodyName = some name → jsTruthy bodyName = true →
      (branches.map Branch.name).contains name = true → r = Except.error reason →
      (checkoutHandler bodyName branches r).1 =
        ⟨409, Body.error ⟨ErrorCode.Conflict, "Unable to checkout branch: " ++ reason⟩⟩) := by
  refine ⟨?_, ?_, ?_, ?_⟩ <;> intros <;> subst_vars <;> simp_all [checkoutHandler]

theorem C3_checkout_witness :
    checkoutHandler none [⟨"master"⟩] (Except.ok ()) =
      (⟨400, Body.error ⟨ErrorCode.BadRequest, "Branch name required"⟩⟩, []) ∧
    checkoutHandler (some "dev") [⟨"master"⟩] (Except.ok ()) =
      (⟨404, Body.error ⟨ErrorCode.NotFound, "Branch not found"⟩⟩, []) ∧
    checkoutHandler (some "master") [⟨"master"⟩] (Except.ok ()) =
      (⟨200, Body.empty⟩,
       [Effect.checkoutBranch "master", Effect.clearTemplateCache,
        Effect.broadcastTemplatesUpdated]) ∧
    (checkoutHandler (some "master") [⟨"master"⟩] (Except.error "busy")).1 =
      ⟨409, Body.error ⟨ErrorCode.Conflict, "Unable to checkout branch: " ++ "busy"⟩⟩ :=
  ⟨(C3_checkout none [⟨"master"⟩] (Except.ok ())).1 (by decide),
   (C3_checkout (some "dev") [⟨"master"⟩] (Except.ok ())).2.1 "dev" rfl
     (by decide) (by decide),
   (C3_checkout (some "master") [⟨"master"⟩] (Except.ok ())).2.2.1 "master" rfl
     (by decide) (by decide) rfl,
   (C3_checkout (some "master") [⟨"master"⟩] (Except.error "busy")).2.2.2 "master" "busy"
     rfl (by decide) (by decide) rfl⟩

/-- C4: for PUT /api/templates/:file, when the write succeeds the status is
200 if the pre-write existence check found the name and 201 otherwise, and
a templatesUpdated broadcast is issued; when the backing-store write fails
the response is 403 WriteError. -/
theorem C4_put (file bodyText : String) (hasResult : Bool) :
    (putTemplateHandler file bodyText hasResult (Except.ok ())).1 =
      ⟨if hasResult then 200 else 201, Body.empty⟩ ∧
    Effect.broadcastTemplatesUpdated ∈
      (putTemplateHandler file bodyText hasResult (Except.ok ())).2 ∧
    (putTemplateHandler file bodyText hasResult (Except.error ())).1 =
      ⟨403, Body.error ⟨ErrorCode.WriteError, "Unable to write template " ++ file⟩⟩ := by
  simp [putTemplateHandler]

/-- C5: for both conversion routes, the response status equals the status the
worker reported; api-version 1.0 returns the full structured result; any
other version returns only the inner document on a 200 status and the full
result otherwise. -/
theorem C5_convert (apiVersion : Option String)
    (m t rd tm : Option String) (mc tn : String) (result : WorkerResult) :
    ((convertHl7Handler apiVersion m t rd tm result).2.status = result.status ∧
     (convertHl7TemplateHandler apiVersion mc tn result).2.status = result.status) ∧
    (apiVersion = some "1.0" →
      (convertHl7Handler apiVersion m t rd tm result).2.body =
        Body.jsonFull result.resultMsg ∧
      (convertHl7TemplateHandler apiVersion mc tn result).2.body =
        Body.jsonFull result.resultMsg) ∧
    (apiVersion ≠ some "1.0" → result.status = 200 →
      (convertHl7Handler apiVersion m t rd tm result).2.body =
        Body.jsonInner result.resultMsg.fhirResource ∧
      (convertHl7TemplateHandler apiVersion mc tn result).2.body =
        Body.jsonInner result.resultMsg.fhirResource) ∧
    (apiVersion ≠ some "1.0" → result.status ≠ 200 →
      (convertHl7Handler apiVersion m t rd tm result).2.body =
        Body.jsonFull result.resultMsg ∧
      (convertHl7TemplateHandler apiVersion mc tn result).2.body =
        Body.jsonFull result.resultMsg) := by
  refine ⟨⟨rfl, rfl⟩, ?_, ?_, ?_⟩ <;> intros <;>
    simp_all [convertHl7Handler, convertHl7TemplateHandler]

theorem C5_convert_witness :
    (convertHl7Handler none none none none none ⟨200, ⟨"doc", "rest"⟩⟩).2.body =
      Body.jsonInner "doc" ∧
    (convertHl7TemplateHandler (some "1.0") "msg" "ADT_A01" ⟨403, ⟨"d", "r"⟩⟩).2.body =
      Body.jsonFull ⟨"d", "r"⟩ :=
  ⟨((C5_convert none none none none none "mc" "tn" ⟨200, ⟨"doc", "rest"⟩⟩).2.2.1
      (by decide) rfl).1,
   ((C5_convert (some "1.0") none none none none "msg" "ADT_A01" ⟨403, ⟨"d", "r"⟩⟩).2.1
      rfl).2⟩

/-- C6: the claim states that the bulk template reset moves every existing
file in the template directory aside.  It does not: a file whose name
starts with a dot, such as the repository directory .git, is listed but
never renamed aside. -/
theorem C6_counterexample :
    ".git" ∈ ([".git", "ADT_A01.hbs"] : List String) ∧
    Effect.renameAside ".git" ∉
      (updateBaseTemplatesHandler [".git", "ADT_A01.hbs"] none).2 := by
  decide

/-- C6 (amended): the bulk template reset moves every existing file whose
name does not start with a dot aside into a temporary folder and deletes
nothing; on copy success it clears the cache, broadcasts templatesUpdated
and responds 200; on copy failure it responds 403 WriteError. -/
theorem C6_reset (existingFiles : List String) (ncpError : Option String) :
    (∀ f ∈ existingFiles, strStartsWith f "." = false →
      Effect.renameAside f ∈ (updateBaseTemplatesHandler existingFiles ncpError).2) ∧
    (∀ f, Effect.deleteFile f ∉ (updateBaseTemplatesHandler existingFiles ncpError).2) ∧
    (updateBaseTemplatesHandler existingFiles none).1 = ⟨200, Body.empty⟩ ∧
    Effect.clearTemplateCache ∈ (updateBaseTemplatesHandler existingFiles none).2 ∧
    Effect.broadcastTemplatesUpdated ∈ (updateBaseTemplatesHandler existingFiles none).2 ∧
    (∀ e, (updateBaseTemplatesHandler existingFiles (some e)).1 =
      ⟨403, Body.error ⟨ErrorCode.WriteError, e⟩⟩) := by
  refine ⟨?_, ?_, ?_, ?_, ?_, ?_⟩
  · intro f hf hdot
    cases ncpError <;>
      exact List.mem_append_left _ (renameAside_mem_moves hf hdot)
  · intro f
    cases ncpError <;> simp [updateBaseTemplatesHandler]
  · simp [updateBaseTemplatesHandler]
  · exact List.mem_append_right _ (by simp)
  · exact List.mem_append_right _ (by simp)
  · intro e
    simp [updateBaseTemplatesHandler]

theorem C6_reset_witness :
    Effect.renameAside "ADT_A01.hbs" ∈
      (updateBaseTemplatesHandler ["ADT_A01.hbs"] none).2 ∧
    (updateBaseTemplatesHandler ["ADT_A01.hbs"] none).1 = ⟨200, Body.empty⟩ :=
  ⟨(C6_reset ["ADT_A01.hbs"] none).1 "ADT_A01.hbs" (by decide) (by decide),
   (C6_reset ["ADT_A01.hbs"] none).2.2.1⟩

/-- C7: writing content C under name N through the cache (the PUT route) and
then reading N back (the GET route) through the same cache instance returns
exactly C with a 200 response: the write-through set is immediately visible
to the next read. -/
theorem C7_roundTrip (c : DirectoryCache) (name content : String) :
    getTemplateRoute (putTemplateRoute c name content).1 name =
      ⟨200, Body.text content⟩ := by
  simp [getTemplateRoute, putTemplateRoute, cacheSet, cacheGet]

/-- C10: when the backing-store write of a PUT fails, no templatesUpdated
broadcast is issued; on the success path the broadcast comes strictly after
the cache set in the handler's effect order. -/
theorem C10_broadcast_only_on_success (file bodyText : String) (hasResult : Bool) :
    Effect.broadcastTemplatesUpdated ∉
      (putTemplateHandler file bodyText hasResult (Except.error ())).2 ∧
    (putTemplateHandler file bodyText hasResult (Except.ok ())).2 =
      [Effect.setTemplate file bodyText, Effect.broadcastTemplatesUpdated] := by
  simp [putTemplateHandler]

end FhirConverter
